import Mathlib

/-!
Verification development for the Bittbridge miner-model repository.

We shallowly embed the discovery logic of
`src/miner_model/student_models/my_model.py` (module-level search for `.h5`
and `.csv` artifacts via `os.walk`, skipping any root whose path contains the
marker `LSTM_outside_example`) and of
`src/miner_model/utils/model_loader.py` (`load_student_model` and
`list_available_models`, operating on an `os.listdir` listing of the
`student_models` directory).  The helper module `helpers.py`, the adapter
module `function_wrapper.py` and the interface module `model_interface.py`
are part of the repository but not present in `src/`; the definitions taken
from them are modelled from the specification and marked as such.
-/

namespace Bittbridge

/-- `charsPrefixOf p s` is `true` when the character list `p` is an initial
segment of `s` (embedding of Python's startswith used to define substring
containment). -/
def charsPrefixOf : List Char → List Char → Bool
  | [], _ => true
  | _ :: _, [] => false
  | a :: as, b :: bs => a == b && charsPrefixOf as bs

/-- `charsSubstr p s` is `true` when `p` occurs as a contiguous run inside
`s`.  With `p` and `s` the character lists of Python strings this is exactly
Python's `p in s` containment test on strings. -/
def charsSubstr (p : List Char) : List Char → Bool
  | [] => p.isEmpty
  | b :: bs => charsPrefixOf p (b :: bs) || charsSubstr p bs

/-- Embedding of Python's `pat in s` substring test on strings. -/
def strContainsSub (s pat : String) : Bool :=
  charsSubstr pat.toList s.toList

/-- Embedding of Python's `s.endswith(suffix)`: the characters of `suffix`
are a final segment of those of `s`. -/
def strEndsWith (s suffix : String) : Bool :=
  charsPrefixOf suffix.toList.reverse s.toList.reverse

/-- The exclusion marker configured in `my_model.py`
(`'LSTM_outside_example' in root`). -/
def exclusionMarker : String := "LSTM_outside_example"

/-- A directory tree: a node holds its named subdirectories (in the order
`os.walk` reports them) and the names of the plain files it contains (in
`os.walk`'s reported order). -/
inductive FTree : Type where
  | node : List (String × FTree) → List String → FTree

/-- The subdirectories of a tree node. -/
def FTree.subdirs : FTree → List (String × FTree)
  | .node ds _ => ds

/-- The plain files of a tree node. -/
def FTree.files : FTree → List String
  | .node _ fs => fs

mutual

/-- Embedding of `os.walk(root)` on the tree `t` rooted at path `root`:
the top-down sequence of `(root, files)` pairs, each subdirectory visited
recursively after its parent, paths joined with `/` as `os.path.join` does
on POSIX. -/
def walk (root : String) : FTree → List (String × List String)
  | .node subdirs files => (root, files) :: walkList root subdirs

/-- Walk of a list of named subtrees under `root`, in order. -/
def walkList (root : String) : List (String × FTree) → List (String × List String)
  | [] => []
  | (n, t) :: rest => walk (root ++ "/" ++ n) t ++ walkList root rest

end

/-- Embedding of the file-collection loops of `my_model.py` (lines 29–36 and
61–68): iterate over the `os.walk` entries in order, skip an entry whose
root contains the exclusion marker, and for the remaining entries append
`os.path.join(root, file)` for every file whose name ends with `ext`. -/
def collectByExt (ext : String) : List (String × List String) → List String
  | [] => []
  | (root, files) :: rest =>
      if strContainsSub root exclusionMarker then collectByExt ext rest
      else ((files.filter (fun f => strEndsWith f ext)).map (fun f => root ++ "/" ++ f))
            ++ collectByExt ext rest

/-- `model_files` of `my_model.py`: every `.h5` file found by walking the
miner-model directory, excluding roots containing the marker. -/
def model_files (minerModelDir : String) (t : FTree) : List String :=
  collectByExt ".h5" (walk minerModelDir t)

/-- `csv_files` of `my_model.py`: every `.csv` file found by walking the
miner-model directory, excluding roots containing the marker. -/
def csv_files (minerModelDir : String) (t : FTree) : List String :=
  collectByExt ".csv" (walk minerModelDir t)

/-- Outcome of a module-level artifact selection in `my_model.py`: either a
selected path or the `FileNotFoundError` raised when no candidate survives
(the spec's `DiscoveryError` kind). -/
inductive SelectResult : Type where
  | ok : String → SelectResult
  | discoveryError : String → SelectResult
deriving DecidableEq, Repr

/-- `model_path` selection of `my_model.py` lines 38–46: raise when
`model_files` is empty, otherwise take `model_files[0]`. -/
def model_path_result (minerModelDir : String) (t : FTree) : SelectResult :=
  match model_files minerModelDir t with
  | [] => .discoveryError ("No .h5 model files found in " ++ minerModelDir)
  | p :: _ => .ok p

/-- `data_path` selection of `my_model.py` lines 70–78: raise when
`csv_files` is empty, otherwise take `csv_files[0]`. -/
def data_path_result (minerModelDir : String) (t : FTree) : SelectResult :=
  match csv_files minerModelDir t with
  | [] => .discoveryError ("No .csv data files found in " ++ minerModelDir)
  | p :: _ => .ok p

/-- The reserved implementation-module names of `model_loader.py`
(`excluded_files = ['__init__.py', 'helpers.py']`, lines 42 and 126). -/
def excluded_files : List String := ["__init__.py", "helpers.py"]

/-- The candidate filter shared by `load_student_model` (lines 43–46) and
`list_available_models` (lines 127–130): keep an entry of the
`student_models` listing when its name ends with `.py` and it is not one of
the reserved names. -/
def candidateModels (listing : List String) : List String :=
  listing.filter (fun f => strEndsWith f ".py" && !(excluded_files.contains f))

/-- `list_available_models` of `model_loader.py` lines 113–132: an absent
`student_models` directory gives `[]`; otherwise the filtered listing.
The directory state is `none` when `os.path.exists` is false and
`some listing` for the `os.listdir` result. -/
def list_available_models (dirListing : Option (List String)) : List String :=
  match dirListing with
  | none => []
  | some listing => candidateModels listing

/-- Modelled from the spec: `FunctionBasedModel` lives in
`miner_model/utils/function_wrapper.py`, which is not under `src/`.  Per the
spec the Function Adapter wraps a raw predict callable so it satisfies the
Prediction Contract; for the loader claims only the wrapped callable
matters, so the adapter is the record of that callable. -/
structure FunctionBasedModel (α β : Type) where
  rawCallable : α → β

/-- The loader-relevant behavior of one implementation file: whether
`importlib.util.spec_from_file_location` yields a usable spec, whether
`spec.loader.exec_module` completes without raising, whether the resulting
module has a `predict` attribute, and that attribute's value. -/
structure ModuleInfo (α β : Type) where
  specOk : Bool
  execOk : Bool
  hasPredict : Bool
  predictFn : α → β

/-- A loading environment in which every file yields a spec, executes
without raising and exposes the identity callable; used to instantiate the
loader theorems at concrete states. -/
def envAllOk : String → ModuleInfo Unit Unit :=
  fun _ => ⟨true, true, true, fun u => u⟩

/-- Outcome of `load_student_model`: either a wrapped adapter together with
the name of the file it was loaded from, or one of the structured failures.
Every failure constructor corresponds to a `return None` branch of the
Python function, tagged with the error it logs. -/
inductive LoadOutcome (α β : Type) where
  | ok : String → FunctionBasedModel α β → LoadOutcome α β
  | errDirMissing : LoadOutcome α β
  | errNoModels : LoadOutcome α β
  | errSpec : String → LoadOutcome α β
  | errLoadFailed : String → LoadOutcome α β
  | errNoPredict : String → LoadOutcome α β

/-- The post-filter part of `load_student_model` of `model_loader.py`
(lines 48–110), with the process-global `sys.path` threaded explicitly.
Inputs: the filtered candidate list, the loading behavior `env` of each
file, the parent directory added to `sys.path` (line 85), and the current
`sys.path`.  Output: the outcome and the resulting `sys.path`.  Branches in
source order: empty candidate list (line 53), failed spec creation (line
77), `sys.path` insertion (lines 86–87), exception during `exec_module`
caught at line 106, missing `predict` attribute (line 98), success (line
104). -/
def loadFromCandidates {α β : Type} (candidates : List String)
    (env : String → ModuleInfo α β) (parentDir : String)
    (sysPath : List String) : LoadOutcome α β × List String :=
  match candidates with
  | [] => (.errNoModels, sysPath)
  | model_file :: _ =>
      let info := env model_file
      if info.specOk then
        let sysPath1 :=
          if parentDir ∈ sysPath then sysPath else parentDir :: sysPath
        if info.execOk then
          if info.hasPredict then
            (.ok model_file ⟨info.predictFn⟩, sysPath1)
          else
            (.errNoPredict model_file, sysPath1)
        else
          (.errLoadFailed model_file, sysPath1)
      else
        (.errSpec model_file, sysPath)

/-- `load_student_model` of `model_loader.py` lines 16–110: the
directory-existence guard of line 38 (listing is `none` when the
`student_models` directory does not exist), then the candidate filter of
lines 43–46, then the loading stage `loadFromCandidates`. -/
def load_student_model {α β : Type} (dirListing : Option (List String))
    (env : String → ModuleInfo α β) (parentDir : String)
    (sysPath : List String) : LoadOutcome α β × List String :=
  match dirListing with
  | none => (.errDirMissing, sysPath)
  | some listing => loadFromCandidates (candidateModels listing) env parentDir sysPath

/-- The implementation file a `load_student_model` run attempted to load,
if it got as far as selecting one: the file carried by every outcome other
than the two pre-selection failures. -/
def LoadOutcome.attemptedFile {α β : Type} : LoadOutcome α β → Option String
  | .ok f _ => some f
  | .errDirMissing => none
  | .errNoModels => none
  | .errSpec f => some f
  | .errLoadFailed f => some f
  | .errNoPredict f => some f

/-- Whether an outcome carries an adapter. -/
def LoadOutcome.isOk {α β : Type} : LoadOutcome α β → Bool
  | .ok _ _ => true
  | _ => false

/-- The interval methods accepted by the prediction helper. -/
inductive IntervalMethod : Type where
  | fixed
  | std
deriving DecidableEq, Repr

/-- Modelled from the spec: `predict_1hour_ahead` lives in
`miner_model/student_models/helpers.py`, which is not under `src/`.  Per
the spec (§4.2, §4.3) the helper invokes the underlying model once to get a
point forecast (failing with a `PredictionError` on a timestamp outside the
data coverage, modelled as `forecast t = none`), then synthesizes the
interval: the `fixed` policy returns `(p − h, p + h)` for the configured
non-negative half-width `h`; the `std` policy returns `(p − z·σ, p + z·σ)`
for a supplied standard error `σ` and fails fast with a configuration error
when no `σ` is supplied. -/
def predict_1hour_ahead (forecast : String → Option ℚ) (halfWidth z : ℚ)
    (timestamp : String) (method : IntervalMethod) (interval_std : Option ℚ) :
    Except String (ℚ × ℚ × ℚ) :=
  match method, interval_std with
  | .std, none => .error "ConfigurationError: std interval method requires a standard error"
  | .std, some σ =>
      match forecast timestamp with
      | none => .error ("PredictionError: " ++ timestamp)
      | some p => .ok (p, p - z * σ, p + z * σ)
  | .fixed, _ =>
      match forecast timestamp with
      | none => .error ("PredictionError: " ++ timestamp)
      | some p => .ok (p, p - halfWidth, p + halfWidth)

namespace MyModel

/-- `predict` of `my_model.py` lines 91–105: delegate to
`predict_1hour_ahead` with `interval_method='fixed'` and
`interval_std=None`.  The loaded model and prepared data are abstracted
into the point-forecast function `forecast`; the helper's configured
half-width and confidence multiplier are the parameters `halfWidth` and
`z`. -/
def predict (forecast : String → Option ℚ) (halfWidth z : ℚ)
    (timestamp : String) : Except String (ℚ × ℚ × ℚ) :=
  predict_1hour_ahead forecast halfWidth z timestamp .fixed none

end MyModel

/-! ## Theorems -/

/-- Every path collected by the module-level artifact search splits into a
walk root that does not contain the exclusion marker and a file name with
the requested extension. -/
theorem mem_collectByExt {ext p : String} {entries : List (String × List String)}
    (hp : p ∈ collectByExt ext entries) :
    ∃ r f, p = r ++ "/" ++ f ∧ strContainsSub r exclusionMarker = false ∧
      strEndsWith f ext = true := by
  induction entries with
  | nil => simp [collectByExt] at hp
  | cons e rest ih =>
      obtain ⟨r0, fs0⟩ := e
      by_cases hm : strContainsSub r0 exclusionMarker = true
      · rw [collectByExt, if_pos hm] at hp
        exact ih hp
      · rw [collectByExt, if_neg hm] at hp
        rcases List.mem_append.mp hp with hL | hR
        · obtain ⟨f, hf, hfp⟩ := List.mem_map.mp hL
          obtain ⟨-, hfe⟩ := List.mem_filter.mp hf
          exact ⟨r0, f, hfp.symm, by simpa using hm, hfe⟩
        · exact ih hR

/-- A successful `model_path` selection returns the head of `model_files`. -/
theorem model_path_ok_mem {d p : String} {t : FTree}
    (hp : model_path_result d t = .ok p) : p ∈ model_files d t := by
  unfold model_path_result at hp
  cases h : model_files d t with
  | nil => rw [h] at hp; simp at hp
  | cons a l =>
      rw [h] at hp
      simp only [SelectResult.ok.injEq] at hp
      rw [← hp]
      exact List.mem_cons_self a l

/-- A successful `data_path` selection returns the head of `csv_files`. -/
theorem data_path_ok_mem {d p : String} {t : FTree}
    (hp : data_path_result d t = .ok p) : p ∈ csv_files d t := by
  unfold data_path_result at hp
  cases h : csv_files d t with
  | nil => rw [h] at hp; simp at hp
  | cons a l =>
      rw [h] at hp
      simp only [SelectResult.ok.injEq] at hp
      rw [← hp]
      exact List.mem_cons_self a l

/-- C1 counterexample: the exclusion check of `my_model.py` tests only the
walk root (`'LSTM_outside_example' in root`), never the file name, so a file
named `LSTM_outside_exampleA.h5` lying directly in the miner-model directory
is selected as the model artifact even though its full path contains the
exclusion marker. -/
theorem marker_in_filename_still_selected :
    model_path_result "m" (FTree.node [] ["LSTM_outside_exampleA.h5"])
      = SelectResult.ok "m/LSTM_outside_exampleA.h5"
    ∧ strContainsSub "m/LSTM_outside_exampleA.h5" exclusionMarker = true := by
  exact ⟨rfl, by decide⟩

/-- C1 (amended): no file lying under a walk root that contains the
exclusion marker is ever selected as the model or dataset artifact — a
selected path always splits into a marker-free directory root and a file
name with the right extension — and when no candidate survives the
exclusion the selection fails with the `FileNotFoundError` report (the
spec's `DiscoveryError`).  The exclusion applies to the directory root
only, not to the file's own name. -/
theorem excluded_root_never_selected (d : String) (t : FTree) :
    (∀ p, model_path_result d t = .ok p →
        ∃ r f, p = r ++ "/" ++ f ∧ strContainsSub r exclusionMarker = false ∧
          strEndsWith f ".h5" = true) ∧
    (model_files d t = [] →
        model_path_result d t = .discoveryError ("No .h5 model files found in " ++ d)) ∧
    (∀ p, data_path_result d t = .ok p →
        ∃ r f, p = r ++ "/" ++ f ∧ strContainsSub r exclusionMarker = false ∧
          strEndsWith f ".csv" = true) ∧
    (csv_files d t = [] →
        data_path_result d t = .discoveryError ("No .csv data files found in " ++ d)) := by
  refine ⟨fun p hp => mem_collectByExt (model_path_ok_mem hp), fun h => ?_,
    fun p hp => mem_collectByExt (data_path_ok_mem hp), fun h => ?_⟩
  · unfold model_path_result
    rw [h]
  · unfold data_path_result
    rw [h]

/-- Witness for the amended C1: a plain top-level `.h5` decomposes as
required, and a tree whose only `.h5` sits inside the excluded
`LSTM_outside_example` directory makes selection fail. -/
theorem excluded_root_never_selected_witness :
    (∃ r f, "m/b.h5" = r ++ "/" ++ f ∧ strContainsSub r exclusionMarker = false ∧
      strEndsWith f ".h5" = true) ∧
    model_path_result "mm"
        (FTree.node [("LSTM_outside_example", FTree.node [] ["a.h5"])] [])
      = SelectResult.discoveryError ("No .h5 model files found in " ++ "mm") :=
  ⟨(excluded_root_never_selected "m" (FTree.node [] ["b.h5"])).1 "m/b.h5" rfl,
   (excluded_root_never_selected "mm"
      (FTree.node [("LSTM_outside_example", FTree.node [] ["a.h5"])] [])).2.1 (by decide)⟩

/-- The file a loader run attempts to load is the head of the filtered
candidate list, whatever the loading environment does. -/
theorem load_attemptedFile {α β : Type} (listing : List String)
    (env : String → ModuleInfo α β) (parentDir : String) (sysPath : List String) :
    ((load_student_model (some listing) env parentDir sysPath).1).attemptedFile
      = (candidateModels listing).head? := by
  show ((loadFromCandidates (candidateModels listing) env parentDir sysPath).1).attemptedFile
      = (candidateModels listing).head?
  cases h : candidateModels listing with
  | nil => simp [loadFromCandidates, LoadOutcome.attemptedFile]
  | cons f rest =>
      by_cases hs : (env f).specOk = true
      · by_cases he : (env f).execOk = true
        · by_cases hp : (env f).hasPredict = true
          · simp [loadFromCandidates, hs, he, hp, LoadOutcome.attemptedFile]
          · simp [loadFromCandidates, hs, he, hp, LoadOutcome.attemptedFile]
        · simp [loadFromCandidates, hs, he, LoadOutcome.attemptedFile]
      · simp [loadFromCandidates, hs, LoadOutcome.attemptedFile]

/-- C2: discovery is deterministic.  All three selection/loading procedures
are pure functions of the directory state (tree, listing order, loading
environment, `sys.path`): two runs over equal states select equal model
files, equal data files, and produce equal loader outcomes and equal
post-states.  No hidden state influences the result. -/
theorem discovery_deterministic {α β : Type} (d₁ d₂ : String) (t₁ t₂ : FTree)
    (l₁ l₂ : Option (List String)) (env₁ env₂ : String → ModuleInfo α β)
    (parent₁ parent₂ : String) (sp₁ sp₂ : List String)
    (hd : d₁ = d₂) (ht : t₁ = t₂) (hl : l₁ = l₂) (he : env₁ = env₂)
    (hpp : parent₁ = parent₂) (hs : sp₁ = sp₂) :
    model_path_result d₁ t₁ = model_path_result d₂ t₂
    ∧ data_path_result d₁ t₁ = data_path_result d₂ t₂
    ∧ load_student_model l₁ env₁ parent₁ sp₁ = load_student_model l₂ env₂ parent₂ sp₂ := by
  subst hd ht hl he hpp hs
  exact ⟨rfl, rfl, rfl⟩

/-- Witness for C2 at a concrete directory state. -/
theorem discovery_deterministic_witness :
    model_path_result "m" (FTree.node [] ["a.h5"])
      = model_path_result "m" (FTree.node [] ["a.h5"])
    ∧ data_path_result "m" (FTree.node [] ["a.h5"])
      = data_path_result "m" (FTree.node [] ["a.h5"])
    ∧ load_student_model (α := Unit) (β := Unit) (some ["a.py"])
        (fun _ => ⟨true, true, true, fun u => u⟩) "m" []
      = load_student_model (some ["a.py"]) (fun _ => ⟨true, true, true, fun u => u⟩) "m" [] :=
  discovery_deterministic "m" "m" (FTree.node [] ["a.h5"]) (FTree.node [] ["a.h5"])
    (some ["a.py"]) (some ["a.py"]) (fun _ => ⟨true, true, true, fun u => u⟩)
    (fun _ => ⟨true, true, true, fun u => u⟩) "m" "m" [] []
    rfl rfl rfl rfl rfl rfl

/-- C3: for every timestamp within the model's data coverage (the abstract
point forecast is defined there) and the configured non-negative fixed
half-width, `predict` returns the point forecast together with an interval
`(low, high)` satisfying `low ≤ point_forecast ≤ high`. -/
theorem predict_interval_brackets (forecast : String → Option ℚ) (h z : ℚ)
    (t : String) (p : ℚ) (hcov : forecast t = some p) (hh : 0 ≤ h) :
    MyModel.predict forecast h z t = .ok (p, p - h, p + h)
    ∧ p - h ≤ p ∧ p ≤ p + h := by
  refine ⟨?_, by linarith, by linarith⟩
  simp [MyModel.predict, predict_1hour_ahead, hcov]

/-- Witness for C3 at a concrete forecast function and half-width. -/
theorem predict_interval_brackets_witness :
    MyModel.predict (fun _ => some 5) 1 0 "2024-01-15T10:30:00+00:00"
        = .ok (5, 5 - 1, 5 + 1)
    ∧ (5 : ℚ) - 1 ≤ 5 ∧ (5 : ℚ) ≤ 5 + 1 :=
  predict_interval_brackets (fun _ => some 5) 1 0 "2024-01-15T10:30:00+00:00" 5
    rfl (by norm_num)

/-- C4: when the selected implementation module loads (spec created,
execution raises nothing) but lacks a `predict` attribute, the loader
reports the missing-entry-point failure and returns no adapter. -/
theorem missing_predict_no_adapter {α β : Type} (listing : List String)
    (env : String → ModuleInfo α β) (parentDir : String) (sysPath : List String)
    (f : String) (rest : List String)
    (hc : candidateModels listing = f :: rest)
    (hspec : (env f).specOk = true) (hexec : (env f).execOk = true)
    (hnp : (env f).hasPredict = false) :
    (load_student_model (some listing) env parentDir sysPath).1 = .errNoPredict f
    ∧ ((load_student_model (some listing) env parentDir sysPath).1).isOk = false := by
  show (loadFromCandidates (candidateModels listing) env parentDir sysPath).1 = .errNoPredict f
    ∧ ((loadFromCandidates (candidateModels listing) env parentDir sysPath).1).isOk = false
  rw [hc]
  simp [loadFromCandidates, hspec, hexec, hnp, LoadOutcome.isOk]

/-- Witness for C4: a listing whose only candidate loads without a
`predict` attribute. -/
theorem missing_predict_no_adapter_witness :
    (load_student_model (α := Unit) (β := Unit) (some ["a.py"])
        (fun _ => ⟨true, true, false, fun u => u⟩) "m" []).1 = .errNoPredict "a.py"
    ∧ ((load_student_model (α := Unit) (β := Unit) (some ["a.py"])
        (fun _ => ⟨true, true, false, fun u => u⟩) "m" []).1).isOk = false :=
  missing_predict_no_adapter ["a.py"] (fun _ => ⟨true, true, false, fun u => u⟩)
    "m" [] "a.py" [] (by decide) rfl rfl rfl

/-- C5: `load_student_model` never partially succeeds.  Every run either
returns a fully validated adapter — the selected file is the head of the
candidate list, its spec was created, its execution raised nothing, it has
a `predict` attribute, and the adapter wraps exactly that attribute — or
one of the five structured failures, which carry no adapter; no other
outcome (in particular no uncaught exception) is possible. -/
theorem load_never_partial {α β : Type} (dirListing : Option (List String))
    (env : String → ModuleInfo α β) (parentDir : String) (sysPath : List String) :
    (∃ listing f rest m,
        dirListing = some listing ∧ candidateModels listing = f :: rest
        ∧ (env f).specOk = true ∧ (env f).execOk = true ∧ (env f).hasPredict = true
        ∧ (load_student_model dirListing env parentDir sysPath).1 = .ok f m
        ∧ m.rawCallable = (env f).predictFn)
    ∨ (load_student_model dirListing env parentDir sysPath).1 = .errDirMissing
    ∨ (load_student_model dirListing env parentDir sysPath).1 = .errNoModels
    ∨ (∃ f, (load_student_model dirListing env parentDir sysPath).1 = .errSpec f)
    ∨ (∃ f, (load_student_model dirListing env parentDir sysPath).1 = .errLoadFailed f)
    ∨ (∃ f, (load_student_model dirListing env parentDir sysPath).1 = .errNoPredict f) := by
  cases dirListing with
  | none => exact Or.inr (Or.inl rfl)
  | some listing =>
      cases h : candidateModels listing with
      | nil =>
          refine Or.inr (Or.inr (Or.inl ?_))
          show (loadFromCandidates (candidateModels listing) env parentDir sysPath).1 = _
          rw [h]
          rfl
      | cons f rest =>
          by_cases hs : (env f).specOk = true
          · by_cases he : (env f).execOk = true
            · by_cases hp : (env f).hasPredict = true
              · refine Or.inl ⟨listing, f, rest, ⟨(env f).predictFn⟩, rfl, h, hs, he, hp, ?_, rfl⟩
                show (loadFromCandidates (candidateModels listing) env parentDir sysPath).1 = _
                rw [h]
                simp [loadFromCandidates, hs, he, hp]
              · refine Or.inr (Or.inr (Or.inr (Or.inr (Or.inr ⟨f, ?_⟩))))
                show (loadFromCandidates (candidateModels listing) env parentDir sysPath).1 = _
                rw [h]
                simp [loadFromCandidates, hs, he, hp]
            · refine Or.inr (Or.inr (Or.inr (Or.inr (Or.inl ⟨f, ?_⟩))))
              show (loadFromCandidates (candidateModels listing) env parentDir sysPath).1 = _
              rw [h]
              simp [loadFromCandidates, hs, he]
          · refine Or.inr (Or.inr (Or.inr (Or.inl ⟨f, ?_⟩)))
            show (loadFromCandidates (candidateModels listing) env parentDir sysPath).1 = _
            rw [h]
            simp [loadFromCandidates, hs]

/-- C6: when the `student_models` directory exists but the filtered
candidate list is empty, the loader reports the missing
implementation-module failure (the "No student model found" log of lines
49–52) and returns no adapter. -/
theorem no_candidates_reports_missing {α β : Type} (listing : List String)
    (env : String → ModuleInfo α β) (parentDir : String) (sysPath : List String)
    (hc : candidateModels listing = []) :
    (load_student_model (some listing) env parentDir sysPath).1 = .errNoModels
    ∧ ((load_student_model (some listing) env parentDir sysPath).1).isOk = false := by
  have h1 : (load_student_model (some listing) env parentDir sysPath).1 = .errNoModels := by
    show (loadFromCandidates (candidateModels listing) env parentDir sysPath).1 = _
    rw [hc]
    rfl
  exact ⟨h1, by rw [h1]; rfl⟩

/-- Witness for C6: a listing containing only the reserved helper file has
no candidates. -/
theorem no_candidates_reports_missing_witness :
    (load_student_model (α := Unit) (β := Unit) (some ["helpers.py", "notes.txt"])
        (fun _ => ⟨true, true, true, fun u => u⟩) "m" []).1 = .errNoModels
    ∧ ((load_student_model (α := Unit) (β := Unit) (some ["helpers.py", "notes.txt"])
        (fun _ => ⟨true, true, true, fun u => u⟩) "m" []).1).isOk = false :=
  no_candidates_reports_missing ["helpers.py", "notes.txt"]
    (fun _ => ⟨true, true, true, fun u => u⟩) "m" [] (by decide)

/-- C7: within each artifact-kind partition, the first match of the
enumeration wins: a non-empty `.h5` (resp. `.csv`) candidate list makes the
selection return exactly its head, and the loader's attempted
implementation file is exactly the head of the filtered candidate list.
Each selection returns a single artifact. -/
theorem first_match_selected {α β : Type} (d : String) (t : FTree) (listing : List String)
    (env : String → ModuleInfo α β) (parentDir : String) (sysPath : List String) :
    (model_files d t ≠ [] →
        model_path_result d t = .ok ((model_files d t).headI)) ∧
    (csv_files d t ≠ [] →
        data_path_result d t = .ok ((csv_files d t).headI)) ∧
    ((load_student_model (some listing) env parentDir sysPath).1).attemptedFile
      = (candidateModels listing).head? := by
  refine ⟨?_, ?_, load_attemptedFile listing env parentDir sysPath⟩
  · intro hne
    unfold model_path_result
    cases h : model_files d t with
    | nil => exact absurd h hne
    | cons a l => rfl
  · intro hne
    unfold data_path_result
    cases h : csv_files d t with
    | nil => exact absurd h hne
    | cons a l => rfl

/-- Witness for C7 at a concrete tree and listing. -/
theorem first_match_selected_witness :
    (model_path_result "m" (FTree.node [] ["a.h5", "b.h5", "c.csv"])
      = .ok ((model_files "m" (FTree.node [] ["a.h5", "b.h5", "c.csv"])).headI)) ∧
    (data_path_result "m" (FTree.node [] ["a.h5", "b.h5", "c.csv"])
      = .ok ((csv_files "m" (FTree.node [] ["a.h5", "b.h5", "c.csv"])).headI)) ∧
    ((load_student_model (α := Unit) (β := Unit) (some ["x.py", "y.py"])
        (fun _ => ⟨true, true, true, fun u => u⟩) "m" []).1).attemptedFile
      = (candidateModels ["x.py", "y.py"]).head? :=
  ⟨(first_match_selected (α := Unit) (β := Unit) "m" (FTree.node [] ["a.h5", "b.h5", "c.csv"])
      ["x.py", "y.py"] (fun _ => ⟨true, true, true, fun u => u⟩) "m" []).1 (by decide),
   (first_match_selected (α := Unit) (β := Unit) "m" (FTree.node [] ["a.h5", "b.h5", "c.csv"])
      ["x.py", "y.py"] (fun _ => ⟨true, true, true, fun u => u⟩) "m" []).2.1 (by decide),
   (first_match_selected (α := Unit) (β := Unit) "m" (FTree.node [] ["a.h5", "b.h5", "c.csv"])
      ["x.py", "y.py"] (fun _ => ⟨true, true, true, fun u => u⟩) "m" []).2.2⟩

/-- Membership in the filtered candidate list forces a `.py` suffix and a
name outside the reserved list. -/
theorem mem_candidateModels {f : String} {listing : List String}
    (hf : f ∈ candidateModels listing) :
    f ∈ listing ∧ strEndsWith f ".py" = true ∧ excluded_files.contains f = false := by
  obtain ⟨h1, h2⟩ := List.mem_filter.mp hf
  rw [Bool.and_eq_true] at h2
  refine ⟨h1, h2.1, ?_⟩
  have h4 := h2.2
  cases hb : excluded_files.contains f
  · rfl
  · rw [hb] at h4
    exact absurd h4 (by decide)

/-- The head of a list, when present, is a member. -/
theorem head?_eq_some_mem {l : List String} {a : String} (h : l.head? = some a) :
    a ∈ l := by
  cases l with
  | nil => simp at h
  | cons b bs =>
      simp only [List.head?_cons, Option.some.injEq] at h
      rw [← h]
      exact List.mem_cons_self b bs

/-- C8: the reserved file names `__init__.py` and `helpers.py` are never
candidates for implementation-module selection: they are not in the
filtered candidate list, not in the result of `list_available_models`, and
never the file `load_student_model` attempts to load — whatever the listing
and loading environment. -/
theorem reserved_names_never_candidates {α β : Type} (listing : List String)
    (env : String → ModuleInfo α β) (parentDir : String) (sysPath : List String) :
    "__init__.py" ∉ candidateModels listing
    ∧ "helpers.py" ∉ candidateModels listing
    ∧ "__init__.py" ∉ list_available_models (some listing)
    ∧ "helpers.py" ∉ list_available_models (some listing)
    ∧ ((load_student_model (some listing) env parentDir sysPath).1).attemptedFile
        ≠ some "__init__.py"
    ∧ ((load_student_model (some listing) env parentDir sysPath).1).attemptedFile
        ≠ some "helpers.py" := by
  have hi : "__init__.py" ∉ candidateModels listing := by
    intro h
    have := (mem_candidateModels h).2.2
    exact absurd this (by decide)
  have hh : "helpers.py" ∉ candidateModels listing := by
    intro h
    have := (mem_candidateModels h).2.2
    exact absurd this (by decide)
  refine ⟨hi, hh, hi, hh, ?_, ?_⟩
  · intro h
    rw [load_attemptedFile] at h
    exact hi (head?_eq_some_mem h)
  · intro h
    rw [load_attemptedFile] at h
    exact hh (head?_eq_some_mem h)

/-- C9 counterexample: `load_student_model` does not always add the parent
directory to `sys.path` when it is absent — a call that fails before the
loading step (here: the `student_models` directory does not exist) returns
with `sys.path` unchanged even though the parent directory is not on it. -/
theorem sysPath_not_always_inserted :
    ((load_student_model (α := Unit) (β := Unit) none
        (fun _ => ⟨true, true, true, fun u => u⟩) "parent" []).2 = [])
    ∧ "parent" ∉ ([] : List String) :=
  ⟨rfl, by decide⟩

/-- C9 (amended): the `sys.path` frame effect of `load_student_model` is
exactly this — when the call reaches the module-loading step (the directory
exists, the candidate list is non-empty and spec creation succeeds for its
head), the parent directory is pushed to the front of `sys.path` when
absent and `sys.path` is untouched when already present, and this persists
after return whether module execution and entry-point validation succeed or
fail; a call that returns before that step leaves `sys.path` unchanged.
Nothing else of the threaded state is modified. -/
theorem sysPath_frame {α β : Type} (dirListing : Option (List String))
    (env : String → ModuleInfo α β) (parentDir : String) (sysPath : List String) :
    (dirListing = none →
        (load_student_model dirListing env parentDir sysPath).2 = sysPath)
    ∧ (∀ listing, dirListing = some listing → candidateModels listing = [] →
        (load_student_model dirListing env parentDir sysPath).2 = sysPath)
    ∧ (∀ listing f rest, dirListing = some listing →
        candidateModels listing = f :: rest → (env f).specOk = false →
        (load_student_model dirListing env parentDir sysPath).2 = sysPath)
    ∧ (∀ listing f rest, dirListing = some listing →
        candidateModels listing = f :: rest → (env f).specOk = true →
        (load_student_model dirListing env parentDir sysPath).2
          = if parentDir ∈ sysPath then sysPath else parentDir :: sysPath) := by
  refine ⟨?_, ?_, ?_, ?_⟩
  · intro h; rw [h]; rfl
  · intro listing h hc
    rw [h]
    show (loadFromCandidates (candidateModels listing) env parentDir sysPath).2 = _
    rw [hc]
    rfl
  · intro listing f rest h hc hs
    rw [h]
    show (loadFromCandidates (candidateModels listing) env parentDir sysPath).2 = _
    rw [hc]
    simp [loadFromCandidates, hs]
  · intro listing f rest h hc hs
    rw [h]
    show (loadFromCandidates (candidateModels listing) env parentDir sysPath).2 = _
    rw [hc]
    by_cases he : (env f).execOk = true
    · by_cases hp : (env f).hasPredict = true
      · simp [loadFromCandidates, hs, he, hp]
      · simp [loadFromCandidates, hs, he, hp]
    · simp [loadFromCandidates, hs, he]

/-- Witness for the amended C9: on a concrete run that reaches loading and
then fails entry-point validation, the parent directory ends up at the
front of `sys.path`; a pre-loading failure leaves `sys.path` unchanged. -/
theorem sysPath_frame_witness :
    ((load_student_model (α := Unit) (β := Unit) (some ["a.py"])
        (fun _ => ⟨true, true, false, fun u => u⟩) "parent" ["other"]).2
      = if "parent" ∈ ["other"] then ["other"] else "parent" :: ["other"])
    ∧ ((load_student_model (α := Unit) (β := Unit) (some ["helpers.py"])
        (fun _ => ⟨true, true, false, fun u => u⟩) "parent" ["other"]).2
      = ["other"]) :=
  ⟨(sysPath_frame (α := Unit) (β := Unit) (some ["a.py"])
      (fun _ => ⟨true, true, false, fun u => u⟩) "parent" ["other"]).2.2.2
      ["a.py"] "a.py" [] rfl (by decide) rfl,
   (sysPath_frame (α := Unit) (β := Unit) (some ["helpers.py"])
      (fun _ => ⟨true, true, false, fun u => u⟩) "parent" ["other"]).2.1
      ["helpers.py"] rfl (by decide)⟩

/-- C10: whenever the `student_models` directory exists, the implementation
file `load_student_model` attempts to load is exactly the first element of
`list_available_models`, and a load is attempted precisely when
`list_available_models` is non-empty. -/
theorem load_refines_list {α β : Type} (listing : List String)
    (env : String → ModuleInfo α β) (parentDir : String) (sysPath : List String) :
    ((load_student_model (some listing) env parentDir sysPath).1).attemptedFile
      = (list_available_models (some listing)).head?
    ∧ (((load_student_model (some listing) env parentDir sysPath).1).attemptedFile ≠ none
        ↔ list_available_models (some listing) ≠ []) := by
  have h1 : ((load_student_model (some listing) env parentDir sysPath).1).attemptedFile
      = (list_available_models (some listing)).head? :=
    load_attemptedFile listing env parentDir sysPath
  refine ⟨h1, ?_⟩
  rw [h1]
  cases h : list_available_models (some listing) with
  | nil => simp
  | cons a l => simp

/-- Witness for C5: the disjunction at a concrete loader state (here the
first disjunct, a fully validated adapter, is the one realized). -/
theorem load_never_partial_witness :
    (∃ listing f rest m,
        (some ["a.py"] : Option (List String)) = some listing
        ∧ candidateModels listing = f :: rest
        ∧ (envAllOk f).specOk = true ∧ (envAllOk f).execOk = true
        ∧ (envAllOk f).hasPredict = true
        ∧ (load_student_model (some ["a.py"]) envAllOk "p" []).1 = .ok f m
        ∧ m.rawCallable = (envAllOk f).predictFn)
    ∨ (load_student_model (some ["a.py"]) envAllOk "p" []).1 = .errDirMissing
    ∨ (load_student_model (some ["a.py"]) envAllOk "p" []).1 = .errNoModels
    ∨ (∃ f, (load_student_model (some ["a.py"]) envAllOk "p" []).1 = .errSpec f)
    ∨ (∃ f, (load_student_model (some ["a.py"]) envAllOk "p" []).1 = .errLoadFailed f)
    ∨ (∃ f, (load_student_model (some ["a.py"]) envAllOk "p" []).1 = .errNoPredict f) :=
  load_never_partial (some ["a.py"]) envAllOk "p" []

/-- Witness for C8 at a concrete listing containing both reserved names. -/
theorem reserved_names_never_candidates_witness :
    "__init__.py" ∉ candidateModels ["__init__.py", "helpers.py", "a.py"] :=
  (reserved_names_never_candidates ["__init__.py", "helpers.py", "a.py"]
    envAllOk "p" []).1

/-- Witness for C10 at a concrete listing. -/
theorem load_refines_list_witness :
    ((load_student_model (some ["x.py", "y.py"]) envAllOk "p" []).1).attemptedFile
      = (list_available_models (some ["x.py", "y.py"])).head? :=
  (load_refines_list ["x.py", "y.py"] envAllOk "p" []).1

end Bittbridge
